import Mathlib

/-!
Verification development for a HomeMatic XML-API HTTP client written in Go.

The client issues parameterized GET requests against fixed `.cgi` endpoints of
a home-automation controller, decodes the XML responses into typed records and
exposes typed accessor/mutator methods.  This file shallowly embeds the
client's own logic (query construction, input validation, encoding
normalization, response projection and filtering) as executable Lean
definitions and proves properties about them.

Modelling conventions:
* Go byte slices are `List Nat` with every element `< 256`.
* External collaborators (the HTTP transport `net/http`, and the XML decoder
  `encoding/xml`) are not part of this repository; they are modelled as
  oracles supplied in a `World` structure.  Everything the repository itself
  computes is embedded faithfully.
* Fallible Go functions returning `(T, error)` become `Except String T`.
-/

set_option autoImplicit false

namespace Homematic

/-! ## Byte-level text utilities

`utf8.Valid` from Go's `unicode/utf8` package, restated over `List Nat`.
The byte-range table below is exactly Go's `first`/`acceptRanges` table
(RFC 3629 well-formedness: no surrogates, no overlong forms, max U+10FFFF).
-/

/-- The byte-level automaton of Go `utf8.Valid`: the first component is the
list of admissible ranges for the pending continuation bytes of the current
code point (Go tracks the same information through its `first` and
`acceptRanges` tables plus a size counter), the second the remaining input.
A leading byte picks the ranges per the table (RFC 3629 well-formedness: no
surrogates, no overlong forms, max U+10FFFF); a continuation byte must lie
in the front range. -/
def utf8Step : List (Nat × Nat) → List Nat → Bool
  | [], [] => true
  | _ :: _, [] => false
  | [], b :: rest =>
    if b < 128 then utf8Step [] rest
    else if 194 ≤ b ∧ b ≤ 223 then utf8Step [(128, 191)] rest
    else if b = 224 then utf8Step [(160, 191), (128, 191)] rest
    else if 225 ≤ b ∧ b ≤ 236 then utf8Step [(128, 191), (128, 191)] rest
    else if b = 237 then utf8Step [(128, 159), (128, 191)] rest
    else if 238 ≤ b ∧ b ≤ 239 then utf8Step [(128, 191), (128, 191)] rest
    else if b = 240 then utf8Step [(144, 191), (128, 191), (128, 191)] rest
    else if 241 ≤ b ∧ b ≤ 243 then utf8Step [(128, 191), (128, 191), (128, 191)] rest
    else if b = 244 then utf8Step [(128, 143), (128, 191), (128, 191)] rest
    else false
  | (lo, hi) :: pend, b :: rest =>
    if lo ≤ b ∧ b ≤ hi then utf8Step pend rest else false

/-- Go `utf8.Valid`: does the byte sequence consist of well-formed UTF-8? -/
def Utf8Valid (l : List Nat) : Bool := utf8Step [] l

/-- The byte sequence of an ASCII string literal (used only on ASCII text). -/
def asciiBytes (s : String) : List Nat := s.data.map Char.toNat

/-- Byte-wise ASCII lowercasing, `A`-`Z` mapped to `a`-`z`.

Models the effect of Go `strings.ToLower` as far as the searches below can
observe it: the needles searched for are pure ASCII, Unicode lowercasing
agrees with ASCII lowercasing on ASCII letters, and no non-ASCII character
(nor the U+FFFD replacement of an invalid byte) can take part in a match of a
pure-ASCII needle, since every non-ASCII UTF-8 byte is `≥ 0x80`. -/
def asciiLowerBytes (l : List Nat) : List Nat :=
  l.map (fun b => if 65 ≤ b ∧ b ≤ 90 then b + 32 else b)

/-- Go `strings.HasPrefix pat s` read as: is `pat` a leading segment of `s`? -/
def hasPre : List Nat → List Nat → Bool
  | [], _ => true
  | _ :: _, [] => false
  | p :: ps, b :: bs => if p = b then hasPre ps bs else false

/-- Go `strings.Contains s pat` over byte sequences. -/
def containsSeq (pat : List Nat) : List Nat → Bool
  | [] => pat.isEmpty
  | b :: t => hasPre pat (b :: t) || containsSeq pat t

/-- Go `strings.ReplaceAll s pat rep` for a nonempty pattern: replaces
non-overlapping occurrences of `pat` left to right.  (For `pat = []` Go
would interleave `rep` between runes; the client only ever passes nonempty
patterns, and this model leaves `s` unchanged in that case.) -/
def replaceAll (pat rep : List Nat) : List Nat → List Nat
  | [] => []
  | b :: rest =>
    if hasPre pat (b :: rest) ∧ pat ≠ [] then
      rep ++ replaceAll pat rep (rest.drop (pat.length - 1))
    else
      b :: replaceAll pat rep rest
termination_by s => s.length
decreasing_by
  · simp only [List.length_cons, List.length_drop]
    omega
  · simp only [List.length_cons]
    omega

/-- The UTF-8 encoding of the Unicode code point `b` of an ISO-8859-1 byte
(`charmap.ISO8859_1` maps byte `b` to code point `b`; the decoder is total). -/
def encodeLatin1Char (b : Nat) : List Nat :=
  if b < 128 then [b] else [192 + b / 64, 128 + b % 64]

/-- Go `charmap.ISO8859_1.NewDecoder().Bytes(data)`: transcode ISO-8859-1
bytes to UTF-8.  This decoder never fails (all 256 byte values are mapped). -/
def latin1DecodeBytes (data : List Nat) : List Nat :=
  data.flatMap encodeLatin1Char

/-- Source `min` (file `part_001`, lines 242-248): minimum of two integers. -/
def goMin (a b : Nat) : Nat := if a < b then a else b

/-- The encoding-declaration sniff of `convertToUTF8` (lines 224-226):
does the lowercased first-200-byte window mention a Latin-1 family name? -/
def latinDeclCond (data : List Nat) : Bool :=
  containsSeq (asciiBytes "iso-8859-1")
      (asciiLowerBytes (data.take (goMin data.length 200))) ||
    containsSeq (asciiBytes "latin1")
      (asciiLowerBytes (data.take (goMin data.length 200)))

/-- Source `convertToUTF8` (file `part_001`, lines 216-240): return the input
unchanged if it is already valid UTF-8; otherwise, if the first 200 bytes
mention a Latin-1 family encoding name (case-insensitively), transcode from
ISO-8859-1 and rewrite the exact labels `ISO-8859-1` and `iso-8859-1`;
otherwise return the input unchanged. -/
def convertToUTF8 (data : List Nat) : Except String (List Nat) :=
  if Utf8Valid data then .ok data
  else if latinDeclCond data then
    let utf8Data := latin1DecodeBytes data
    let s1 := replaceAll (asciiBytes "ISO-8859-1") (asciiBytes "UTF-8") utf8Data
    let s2 := replaceAll (asciiBytes "iso-8859-1") (asciiBytes "utf-8") s1
    .ok s2
  else .ok data

/-! ## Charset sub-decoder -/

/-- The transcoding readers `charsetReader` can hand to the XML decoder
(`transform.NewReader` over the respective `charmap` decoder), as tags. -/
inductive CharsetDecoder where
  | iso8859_1
  | windows1252
deriving DecidableEq

/-- Go `strings.ToLower` on a `String`: rune-wise `unicode.ToLower` with the
Unicode simple case mappings, modelled exactly as far as comparison against
the ASCII charset names below can observe.  ASCII uppercase letters shift by
32, and the two code points outside ASCII whose simple lowercase mapping is
an ASCII letter are mapped as Go maps them: U+0130 (Latin capital I with dot
above) to `i` and U+212A (Kelvin sign) to `k`.  Every other rune lowercases
to a non-ASCII rune (or to itself), so leaving it unchanged here cannot flip
an equality with an ASCII-only name. -/
def goToLower (s : String) : String :=
  ⟨s.data.map (fun c =>
    if 'A' ≤ c ∧ c ≤ 'Z' then Char.ofNat (c.toNat + 32)
    else if c.toNat = 304 then 'i'
    else if c.toNat = 8490 then 'k'
    else c)⟩

/-- Source `charsetReader` (file `part_001`, lines 204-214): dispatch on the
lowercased charset name; unknown names yield an explicit error. -/
def charsetReader (charset : String) : Except String CharsetDecoder :=
  if goToLower charset = "iso-8859-1" ∨ goToLower charset = "latin1" then
    .ok .iso8859_1
  else if goToLower charset = "windows-1252" ∨ goToLower charset = "cp1252" then
    .ok .windows1252
  else
    .error ("unsupported charset: " ++ charset)

/-! ## Whitespace trimming -/

/-- Go `unicode.IsSpace`: the Unicode White_Space property
(`\t \n \v \f \r` and space in Latin-1, NEL, NBSP, and the higher
White_Space code points). -/
def isGoSpace (c : Char) : Bool :=
  decide ((9 ≤ c.toNat ∧ c.toNat ≤ 13) ∨ c.toNat = 32 ∨ c.toNat = 133 ∨
    c.toNat = 160 ∨ c.toNat = 5760 ∨ (8192 ≤ c.toNat ∧ c.toNat ≤ 8202) ∨
    c.toNat = 8232 ∨ c.toNat = 8233 ∨ c.toNat = 8239 ∨ c.toNat = 8287 ∨
    c.toNat = 12288)

/-- Drop leading Go whitespace. -/
def trimLeftSpace (l : List Char) : List Char := l.dropWhile isGoSpace

/-- Drop trailing Go whitespace. -/
def trimRightSpace (l : List Char) : List Char :=
  (l.reverse.dropWhile isGoSpace).reverse

/-- Go `strings.TrimSpace`: strip leading and trailing white space. -/
def goTrimSpace (s : String) : String :=
  ⟨trimRightSpace (trimLeftSpace s.data)⟩

/-! ## Data model

The typed records mirroring the XML vocabulary (file `part_001`, lines
44-202).  The Go structs' `XMLName xml.Name` members are configuration for
the external XML library (they pin the element name) and carry no data of
their own, so they are omitted.  The Go field `Type` is rendered `Typ`
because `Type` is a Lean keyword. -/

/-- Source `DataPoint`: a channel data point. -/
structure DataPoint where
  Name : String
  Typ : String
  IseID : String
  Value : String
  ValueType : Int
  ValueUnit : String
  Timestamp : Int
deriving DecidableEq

/-- Source `Channel`: a device channel. -/
structure Channel where
  Name : String
  Typ : String
  Address : String
  IseID : String
  Direction : String
  ParentType : String
  Index : Int
  GroupPartner : String
  AESAvailable : Bool
  Transmission : String
  Visible : Bool
  Ready : Bool
  Operate : Bool
  DataPoints : List DataPoint
deriving DecidableEq

/-- Source `Device`: a HomeMatic device. -/
structure Device where
  Name : String
  Address : String
  IseID : String
  Unreach : Bool
  Config : Bool
  DeviceType : String
  InterfaceID : String
  Channels : List Channel
deriving DecidableEq

/-- Source `Program`: a HomeMatic program. -/
structure Program where
  ID : String
  Name : String
  Description : String
  Info : String
  Visible : Bool
  Active : Bool
  Timestamp : Int
deriving DecidableEq

/-- Source `Room`: a HomeMatic room. -/
structure Room where
  Name : String
  IseID : String
  Channels : List Channel
deriving DecidableEq

/-- Source `Function`: a HomeMatic function (grouping of channels). -/
structure Function where
  Name : String
  IseID : String
  Channels : List Channel
deriving DecidableEq

/-- Source `SystemVariable`: a HomeMatic system variable. -/
structure SystemVariable where
  Name : String
  Variable : String
  Value : String
  ValueType : Int
  IseID : String
  Min : String
  Max : String
  Unit : String
  Typ : String
  Subtype : String
  Logged : Bool
  Visible : Bool
  Timestamp : Int
  ValueName0 : String
  ValueName1 : String
  ValueText : String
deriving DecidableEq

/-- Source `DeviceType`: a device type id/name pair. -/
structure DeviceType where
  Name : String
  ID : String
deriving DecidableEq

/-- Source `APIResponse`: the generic `result` envelope. -/
structure APIResponse where
  Devices : List Device
  Programs : List Program
  Rooms : List Room
  Functions : List Function
  SystemVariables : List SystemVariable
  DeviceTypes : List DeviceType
  Version : String
deriving DecidableEq

/-- Source `DeviceListResponse` (`devicelist.cgi` / `mastervalue.cgi`). -/
structure DeviceListResponse where
  Devices : List Device
deriving DecidableEq

/-- Source `StateListResponse` (`statelist.cgi` / `state.cgi`). -/
structure StateListResponse where
  Devices : List Device
deriving DecidableEq

/-- Source `ProgramListResponse` (`programlist.cgi`). -/
structure ProgramListResponse where
  Programs : List Program
deriving DecidableEq

/-- Source `RoomListResponse` (`roomlist.cgi`). -/
structure RoomListResponse where
  Rooms : List Room
deriving DecidableEq

/-- Source `FunctionListResponse` (`functionlist.cgi`). -/
structure FunctionListResponse where
  Functions : List Function
deriving DecidableEq

/-- Source `SystemVariableListResponse` (`sysvarlist.cgi` / `sysvar.cgi`). -/
structure SystemVariableListResponse where
  SystemVariables : List SystemVariable
deriving DecidableEq

/-- Source `DeviceTypeListResponse` (`devicetypelist.cgi`). -/
structure DeviceTypeListResponse where
  DeviceTypes : List DeviceType
deriving DecidableEq

/-- Source `VersionResponse` (`version.cgi`): character content of the
`version` element. -/
structure VersionResponse where
  Value : String
deriving DecidableEq

/-! ## Transport

The Go client builds one URL per call (`<base>/addons/xmlapi/<endpoint>`),
sets the query parameter `sid` to the client token, overlays the call's own
parameters with `q.Set`, and issues a single HTTP GET.  A query is modelled
as a lookup function, `q.Set` as a pointwise update; since `q.Set` for
distinct keys commutes, the unspecified iteration order of the Go parameter
map is immaterial and parameters are carried as an ordered list. -/

/-- Source `Client` (lines 21-25): configuration set once at construction.
The `HTTPClient` collaborator lives in `World.net`. -/
structure Client where
  baseURL : String
  token : String

/-- A query string, as a key-to-value lookup. -/
def Query := String → Option String

/-- `url.Values.Set`: set the value associated with the key, replacing any
existing value. -/
def qset (q : Query) (k v : String) : Query :=
  fun k2 => if k2 = k then some v else q k2

/-- The empty query of a freshly parsed base URL without a query component
(the model assumes a well-formed base URL, so `url.Parse` never fails). -/
def emptyQuery : Query := fun _ => none

/-- The final query of a request: `sid` set to the client token, then each
call parameter overlaid with `q.Set` (lines 257-264). -/
def buildQuery (token : String) (params : List (String × String)) : Query :=
  params.foldl (fun q p => qset q p.1 p.2) (qset emptyQuery "sid" token)

/-- One outbound HTTP GET, as observed by the transport. -/
structure Request where
  url : String
  query : Query

/-- The request issued for an endpoint and parameter list. -/
def requestFor (c : Client) (endpoint : String) (params : List (String × String)) : Request :=
  { url := c.baseURL ++ "/addons/xmlapi/" ++ endpoint
    query := buildQuery c.token params }

/-- An HTTP response: status code and raw body bytes.  (A body-read failure
of `io.ReadAll` is folded into the transport-error case of `Net`.) -/
structure HttpResponse where
  statusCode : Nat
  body : List Nat

/-- The HTTP transport oracle (`net/http` is a collaborator, not part of
this repository): a transport error or a response per request. -/
def Net := Request → Except String HttpResponse

/-- The XML decoder oracles, one per fixed response schema.  `encoding/xml`
is an external library; the schema is selected by the calling method. -/
structure Decoders where
  apiResponse : List Nat → Except String APIResponse
  deviceList : List Nat → Except String DeviceListResponse
  stateList : List Nat → Except String StateListResponse
  programList : List Nat → Except String ProgramListResponse
  roomList : List Nat → Except String RoomListResponse
  functionList : List Nat → Except String FunctionListResponse
  sysVarList : List Nat → Except String SystemVariableListResponse
  deviceTypeList : List Nat → Except String DeviceTypeListResponse
  version : List Nat → Except String VersionResponse

/-- The external world a call runs against. -/
structure World where
  net : Net
  dec : Decoders

/-- The pure result of source `makeRawRequest` (lines 299-337): issue the
GET, fail on transport errors and non-200 statuses, normalize the body. -/
def rawCore (net : Net) (c : Client) (endpoint : String)
    (params : List (String × String)) : Except String (List Nat) :=
  match net (requestFor c endpoint params) with
  | .error e => .error ("HTTP request failed: " ++ e)
  | .ok resp =>
    if resp.statusCode ≠ 200 then .error ("HTTP error: " ++ toString resp.statusCode)
    else
      match convertToUTF8 resp.body with
      | .error e => .error ("failed to convert encoding: " ++ e)
      | .ok utf8Body => .ok utf8Body

/-- Source `makeRawRequest`, with its trace of issued requests. -/
def makeRawRequest (w : World) (c : Client) (endpoint : String)
    (params : List (String × String)) : Except String (List Nat) × List Request :=
  (rawCore w.net c endpoint params, [requestFor c endpoint params])

/-- The decode step each list-returning method repeats (create a decoder
over the normalized body, decode the schema, project the record). -/
def decodeWith {β α : Type} (raw : Except String (List Nat))
    (d : List Nat → Except String β) (proj : β → α) : Except String α :=
  match raw with
  | .error e => .error e
  | .ok body =>
    match d body with
    | .error e => .error ("failed to parse XML: " ++ e)
    | .ok result => .ok (proj result)

/-- The pure result of source `makeRequest` (lines 250-297): like
`makeRawRequest` but decoding the generic `result` envelope. -/
def apiCore (w : World) (c : Client) (endpoint : String)
    (params : List (String × String)) : Except String APIResponse :=
  decodeWith (rawCore w.net c endpoint params) w.dec.apiResponse id

/-- Source `makeRequest`, with its trace of issued requests. -/
def makeRequest (w : World) (c : Client) (endpoint : String)
    (params : List (String × String)) : Except String APIResponse × List Request :=
  (apiCore w c endpoint params, [requestFor c endpoint params])

/-- Discard the decoded envelope of a mutating call, keeping the error. -/
def dropOk : Except String APIResponse → Except String Unit
  | .error e => .error e
  | .ok _ => .ok ()

/-- Go `strings.Join l ","`. -/
def commaJoin (l : List String) : String := String.intercalate "," l

/-- Go `strconv.FormatBool`. -/
def formatBool (b : Bool) : String := if b then "true" else "false"

/-! ## Typed operations

Each public operation returns its Go result (as `Except`) paired with the
list of HTTP GETs it issued.  `NewClient` (pure construction) and
`ExampleUsage` (a demo composing the operations below) issue no requests of
their own and are not modelled separately. -/

/-- Source `GetVersion` (lines 339-356). -/
def GetVersion (w : World) (c : Client) : Except String String × List Request :=
  (decodeWith (rawCore w.net c "version.cgi" []) w.dec.version
      (fun vr => goTrimSpace vr.Value),
    [requestFor c "version.cgi" []])

/-- The parameter list of `GetDeviceList` (lines 360-370). -/
def deviceListParams (deviceIDs : List String) (showInternal showRemote : Bool) :
    List (String × String) :=
  (if deviceIDs.length > 0 then [("device_id", commaJoin deviceIDs)] else []) ++
    (if showInternal then [("show_internal", "1")] else []) ++
    (if showRemote then [("show_remote", "1")] else [])

/-- Source `GetDeviceList` (lines 358-387). -/
def GetDeviceList (w : World) (c : Client) (deviceIDs : List String)
    (showInternal showRemote : Bool) : Except String (List Device) × List Request :=
  (decodeWith (rawCore w.net c "devicelist.cgi" (deviceListParams deviceIDs showInternal showRemote))
      w.dec.deviceList (fun r => r.Devices),
    [requestFor c "devicelist.cgi" (deviceListParams deviceIDs showInternal showRemote)])

/-- Source `GetDeviceTypes` (lines 389-406). -/
def GetDeviceTypes (w : World) (c : Client) :
    Except String (List DeviceType) × List Request :=
  (decodeWith (rawCore w.net c "devicetypelist.cgi" []) w.dec.deviceTypeList
      (fun r => r.DeviceTypes),
    [requestFor c "devicetypelist.cgi" []])

/-- The parameter list of `GetStateList` (lines 410-417); note the device id
is not sent to the server. -/
def stateListParams (showInternal showRemote : Bool) : List (String × String) :=
  (if showInternal then [("show_internal", "1")] else []) ++
    (if showRemote then [("show_remote", "1")] else [])

/-- Source `GetStateList` (lines 408-445): fetch all devices, then filter
client-side by `IseID` when a device id is given. -/
def GetStateList (w : World) (c : Client) (deviceID : String)
    (showInternal showRemote : Bool) : Except String (List Device) × List Request :=
  (decodeWith (rawCore w.net c "statelist.cgi" (stateListParams showInternal showRemote))
      w.dec.stateList
      (fun r =>
        if deviceID ≠ "" then r.Devices.filter (fun d => d.IseID == deviceID)
        else r.Devices),
    [requestFor c "statelist.cgi" (stateListParams showInternal showRemote)])

/-- The parameter list of `GetState` (lines 449-459). -/
def stateParams (deviceIDs channelIDs datapointIDs : List String) :
    List (String × String) :=
  (if deviceIDs.length > 0 then [("device_id", commaJoin deviceIDs)] else []) ++
    (if channelIDs.length > 0 then [("channel_id", commaJoin channelIDs)] else []) ++
    (if datapointIDs.length > 0 then [("datapoint_id", commaJoin datapointIDs)] else [])

/-- Source `GetState` (lines 447-476). -/
def GetState (w : World) (c : Client) (deviceIDs channelIDs datapointIDs : List String) :
    Except String (List Device) × List Request :=
  (decodeWith (rawCore w.net c "state.cgi" (stateParams deviceIDs channelIDs datapointIDs))
      w.dec.stateList (fun r => r.Devices),
    [requestFor c "state.cgi" (stateParams deviceIDs channelIDs datapointIDs)])

/-- Source `ChangeState` (lines 478-491): parallel-list validation before
any request, then one `statechange.cgi` call with comma-joined values. -/
def ChangeState (w : World) (c : Client) (deviceIDs newValues : List String) :
    Except String Unit × List Request :=
  if deviceIDs.length ≠ newValues.length then
    (.error "device IDs and new values must have the same length", [])
  else
    (dropOk (apiCore w c "statechange.cgi"
        [("ise_id", commaJoin deviceIDs), ("new_value", commaJoin newValues)]),
      [requestFor c "statechange.cgi"
        [("ise_id", commaJoin deviceIDs), ("new_value", commaJoin newValues)]])

/-- Source `GetProgramList` (lines 493-510). -/
def GetProgramList (w : World) (c : Client) :
    Except String (List Program) × List Request :=
  (decodeWith (rawCore w.net c "programlist.cgi" []) w.dec.programList
      (fun r => r.Programs),
    [requestFor c "programlist.cgi" []])

/-- The parameter list of `RunProgram` (lines 514-519). -/
def runProgramParams (programID : String) (condCheck : Bool) : List (String × String) :=
  [("program_id", programID)] ++ (if condCheck then [("cond_check", "1")] else [])

/-- Source `RunProgram` (lines 512-523). -/
def RunProgram (w : World) (c : Client) (programID : String) (condCheck : Bool) :
    Except String Unit × List Request :=
  (dropOk (apiCore w c "runprogram.cgi" (runProgramParams programID condCheck)),
    [requestFor c "runprogram.cgi" (runProgramParams programID condCheck)])

/-- The parameter list of `ChangeProgramActions` (lines 527-536); the Go
`*bool` arguments become `Option Bool`. -/
def programActionsParams (programID : String) (active visible : Option Bool) :
    List (String × String) :=
  [("program_id", programID)] ++
    (match active with | some b => [("active", formatBool b)] | none => []) ++
    (match visible with | some b => [("visible", formatBool b)] | none => [])

/-- Source `ChangeProgramActions` (lines 525-540). -/
def ChangeProgramActions (w : World) (c : Client) (programID : String)
    (active visible : Option Bool) : Except String Unit × List Request :=
  (dropOk (apiCore w c "programactions.cgi" (programActionsParams programID active visible)),
    [requestFor c "programactions.cgi" (programActionsParams programID active visible)])

/-- Source `GetRoomList` (lines 542-559). -/
def GetRoomList (w : World) (c : Client) : Except String (List Room) × List Request :=
  (decodeWith (rawCore w.net c "roomlist.cgi" []) w.dec.roomList (fun r => r.Rooms),
    [requestFor c "roomlist.cgi" []])

/-- Source `GetFunctionList` (lines 561-578). -/
def GetFunctionList (w : World) (c : Client) :
    Except String (List Function) × List Request :=
  (decodeWith (rawCore w.net c "functionlist.cgi" []) w.dec.functionList
      (fun r => r.Functions),
    [requestFor c "functionlist.cgi" []])

/-- The `text` parameter shared by the system-variable calls. -/
def textParam (showText : Bool) : String := if showText then "true" else "false"

/-- Source `GetSystemVariableList` (lines 580-604). -/
def GetSystemVariableList (w : World) (c : Client) (showText : Bool) :
    Except String (List SystemVariable) × List Request :=
  (decodeWith (rawCore w.net c "sysvarlist.cgi" [("text", textParam showText)])
      w.dec.sysVarList (fun r => r.SystemVariables),
    [requestFor c "sysvarlist.cgi" [("text", textParam showText)]])

/-- The parameter list of `GetSystemVariable` (lines 608-615). -/
def sysvarParams (iseID : String) (showText : Bool) : List (String × String) :=
  [("ise_id", iseID), ("text", textParam showText)]

/-- Source `GetSystemVariable` (lines 606-636): decode the list schema, fail
when it is empty, otherwise return the first record. -/
def GetSystemVariable (w : World) (c : Client) (iseID : String) (showText : Bool) :
    Except String SystemVariable × List Request :=
  ((match rawCore w.net c "sysvar.cgi" (sysvarParams iseID showText) with
    | .error e => .error e
    | .ok body =>
      match w.dec.sysVarList body with
      | .error e => .error ("failed to parse XML: " ++ e)
      | .ok result =>
        match result.SystemVariables with
        | [] => .error "system variable not found"
        | v :: _ => .ok v),
    [requestFor c "sysvar.cgi" (sysvarParams iseID showText)])

/-- Source `RegisterToken` (lines 638-646). -/
def RegisterToken (w : World) (c : Client) (description : String) :
    Except String Unit × List Request :=
  (dropOk (apiCore w c "tokenregister.cgi" [("desc", description)]),
    [requestFor c "tokenregister.cgi" [("desc", description)]])

/-- Source `RevokeToken` (lines 648-656): note the `sid` parameter set here
overrides the client token set by `makeRequest`. -/
def RevokeToken (w : World) (c : Client) (tokenID : String) :
    Except String Unit × List Request :=
  (dropOk (apiCore w c "tokenrevoke.cgi" [("sid", tokenID)]),
    [requestFor c "tokenrevoke.cgi" [("sid", tokenID)]])

/-- The parameter list of `GetMasterValue` (lines 660-667). -/
def masterValueParams (deviceIDs requestedNames : List String) :
    List (String × String) :=
  (if deviceIDs.length > 0 then [("device_id", commaJoin deviceIDs)] else []) ++
    (if requestedNames.length > 0 then [("requested_names", commaJoin requestedNames)] else [])

/-- Source `GetMasterValue` (lines 658-684). -/
def GetMasterValue (w : World) (c : Client) (deviceIDs requestedNames : List String) :
    Except String (List Device) × List Request :=
  (decodeWith (rawCore w.net c "mastervalue.cgi" (masterValueParams deviceIDs requestedNames))
      w.dec.deviceList (fun r => r.Devices),
    [requestFor c "mastervalue.cgi" (masterValueParams deviceIDs requestedNames)])

/-- Source `ChangeMasterValue` (lines 686-700): three parallel lists must
have equal lengths, then one `mastervaluechange.cgi` call. -/
def ChangeMasterValue (w : World) (c : Client) (deviceIDs names values : List String) :
    Except String Unit × List Request :=
  if deviceIDs.length ≠ names.length ∨ names.length ≠ values.length then
    (.error "device IDs, names, and values must have the same length", [])
  else
    (dropOk (apiCore w c "mastervaluechange.cgi"
        [("device_id", commaJoin deviceIDs), ("name", commaJoin names),
          ("value", commaJoin values)]),
      [requestFor c "mastervaluechange.cgi"
        [("device_id", commaJoin deviceIDs), ("name", commaJoin names),
          ("value", commaJoin values)]])

/-! ## Concrete fixtures

Closed sample values used to instantiate the theorems below on concrete
inputs. -/

/-- A transport through which all requests succeed with status 200 and an
empty body. -/
def net200 : Net := fun _ => .ok ⟨200, []⟩

/-- A transport through which all requests are answered with status 404. -/
def net404 : Net := fun _ => .ok ⟨404, []⟩

/-- Decoders that reject every body. -/
def errDecoders : Decoders :=
  ⟨fun _ => .error "x", fun _ => .error "x", fun _ => .error "x", fun _ => .error "x",
    fun _ => .error "x", fun _ => .error "x", fun _ => .error "x", fun _ => .error "x",
    fun _ => .error "x"⟩

/-- A second, observably different set of decoders. -/
def altDecoders : Decoders :=
  ⟨fun _ => .error "y", fun _ => .error "y", fun _ => .error "y", fun _ => .error "y",
    fun _ => .error "y", fun _ => .error "y", fun _ => .error "y", fun _ => .error "y",
    fun _ => .error "y"⟩

/-- A sample client. -/
def exClient : Client := ⟨"http://ccu", "t"⟩

/-- A sample device with internal id `7`. -/
def exDevice : Device := ⟨"lamp", "ABC123", "7", false, false, "HM-LC-Dim1", "if0", []⟩

/-- A sample system variable. -/
def exSysVar : SystemVariable :=
  ⟨"alarm", "", "true", 2, "950", "", "", "", "", "", false, true, 0, "", "", ""⟩

/-- All requests succeed; all decodes fail. -/
def exW200 : World := ⟨net200, errDecoders⟩

/-- All requests yield status 404. -/
def exW404 : World := ⟨net404, errDecoders⟩

/-- A world whose state-list decode yields exactly `exDevice`. -/
def exWState : World :=
  ⟨net200,
    ⟨fun _ => .error "x", fun _ => .error "x", fun _ => .ok ⟨[exDevice]⟩,
      fun _ => .error "x", fun _ => .error "x", fun _ => .error "x",
      fun _ => .error "x", fun _ => .error "x", fun _ => .error "x"⟩⟩

/-- A world whose system-variable decode yields exactly `exSysVar`. -/
def exWSysVar : World :=
  ⟨net200,
    ⟨fun _ => .error "x", fun _ => .error "x", fun _ => .error "x",
      fun _ => .error "x", fun _ => .error "x", fun _ => .error "x",
      fun _ => .ok ⟨[exSysVar]⟩, fun _ => .error "x", fun _ => .error "x"⟩⟩

/-- A world whose system-variable decode yields no records. -/
def exWSysVarEmpty : World :=
  ⟨net200,
    ⟨fun _ => .error "x", fun _ => .error "x", fun _ => .error "x",
      fun _ => .error "x", fun _ => .error "x", fun _ => .error "x",
      fun _ => .ok ⟨[]⟩, fun _ => .error "x", fun _ => .error "x"⟩⟩

/-- A world whose version decode yields a value padded with whitespace. -/
def exWVersion : World :=
  ⟨net200,
    ⟨fun _ => .error "x", fun _ => .error "x", fun _ => .error "x",
      fun _ => .error "x", fun _ => .error "x", fun _ => .error "x",
      fun _ => .error "x", fun _ => .error "x", fun _ => .ok ⟨" 1.25 "⟩⟩⟩

/-- A transport on which every returned response has a non-200 status. -/
def NetAllNon200 (net : Net) : Prop :=
  ∀ req resp, net req = .ok resp → resp.statusCode ≠ 200

/-- Every byte of the sequence is ASCII. -/
def AllAscii (l : List Nat) : Prop := ∀ b ∈ l, b < 128

instance (l : List Nat) : Decidable (AllAscii l) := by
  unfold AllAscii
  infer_instance

/-- Every pending-range list the automaton ever pushes only admits
continuation bytes `≥ 128`. -/
def PendOk (pend : List (Nat × Nat)) : Prop := ∀ p ∈ pend, 128 ≤ p.1

instance (pend : List (Nat × Nat)) : Decidable (PendOk pend) := by
  unfold PendOk
  infer_instance

/-- A non-UTF-8 body whose declaration names `latin1`: `0xE4` is `ä` in
ISO-8859-1 but is an invalid leading byte position in UTF-8 here. -/
def c3CexInput : List Nat :=
  asciiBytes "<?xml version=\"1.0\" encoding=\"latin1\"?><v>" ++ [228] ++ asciiBytes "</v>"

/-- A non-UTF-8 body whose declaration names `iso-8859-1` in exactly the
lowercase spelling the code rewrites. -/
def c3IsoInput : List Nat :=
  asciiBytes "<?xml version=\"1.0\" encoding=\"iso-8859-1\"?><v>" ++ [228] ++ asciiBytes "</v>"

/-! ## Query-construction lemmas -/

theorem qset_same (q : Query) (k v : String) : qset q k v k = some v := by
  simp [qset]

theorem qset_ne (q : Query) (k v k' : String) (h : k' ≠ k) : qset q k v k' = q k' := by
  simp [qset, h]

theorem foldl_qset_preserve (k : String) :
    ∀ (params : List (String × String)) (q : Query),
      (∀ p ∈ params, p.1 ≠ k) →
      (params.foldl (fun q p => qset q p.1 p.2) q) k = q k := by
  intro params
  induction params with
  | nil => intro q _; rfl
  | cons p ps ih =>
    intro q h
    simp only [List.foldl_cons]
    rw [ih _ (fun x hx => h x (List.mem_cons_of_mem _ hx))]
    exact qset_ne q p.1 p.2 k (fun hk => h p (List.mem_cons_self _ _) hk.symm)

theorem requestFor_sid (c : Client) (endpoint : String) (params : List (String × String))
    (h : ∀ p ∈ params, p.1 ≠ "sid") :
    (requestFor c endpoint params).query "sid" = some c.token := by
  show buildQuery c.token params "sid" = some c.token
  unfold buildQuery
  rw [foldl_qset_preserve _ _ _ h]
  exact qset_same _ _ _

/-! ## Claim theorems -/

/-- C1: if the parallel list arguments of `ChangeState` (deviceIDs vs
newValues) or of `ChangeMasterValue` (deviceIDs vs names vs values) have
unequal lengths, the call returns the validation error and issues no HTTP
request (empty request trace). -/
theorem c1_mismatch_is_local_error :
    (∀ (w : World) (c : Client) (deviceIDs newValues : List String),
      deviceIDs.length ≠ newValues.length →
      ChangeState w c deviceIDs newValues =
        (.error "device IDs and new values must have the same length", [])) ∧
    (∀ (w : World) (c : Client) (deviceIDs names values : List String),
      deviceIDs.length ≠ names.length ∨ names.length ≠ values.length →
      ChangeMasterValue w c deviceIDs names values =
        (.error "device IDs, names, and values must have the same length", [])) := by
  constructor
  · intro w c deviceIDs newValues h
    simp [ChangeState, h]
  · intro w c deviceIDs names values h
    simp [ChangeMasterValue, h]

/-- Witness for C1 at concrete mismatched inputs. -/
theorem c1_mismatch_is_local_error_witness :
    ChangeState exW200 exClient ["1", "2"] ["x"] =
      (.error "device IDs and new values must have the same length", []) ∧
    ChangeMasterValue exW200 exClient ["1"] ["a"] [] =
      (.error "device IDs, names, and values must have the same length", []) :=
  ⟨c1_mismatch_is_local_error.1 exW200 exClient _ _ (by decide),
    c1_mismatch_is_local_error.2 exW200 exClient _ _ _ (by decide)⟩

/-- C9: with equal-length parallel lists, `ChangeState` and
`ChangeMasterValue` take no validation-error branch: each issues exactly one
request whose parameters are the comma-joined lists, in order. -/
theorem c9_equal_lengths_comma_joined :
    (∀ (w : World) (c : Client) (deviceIDs newValues : List String),
      deviceIDs.length = newValues.length →
      ∃ r, (ChangeState w c deviceIDs newValues).2 = [r] ∧
        r.query "ise_id" = some (commaJoin deviceIDs) ∧
        r.query "new_value" = some (commaJoin newValues)) ∧
    (∀ (w : World) (c : Client) (deviceIDs names values : List String),
      deviceIDs.length = names.length → names.length = values.length →
      ∃ r, (ChangeMasterValue w c deviceIDs names values).2 = [r] ∧
        r.query "device_id" = some (commaJoin deviceIDs) ∧
        r.query "name" = some (commaJoin names) ∧
        r.query "value" = some (commaJoin values)) := by
  constructor
  · intro w c deviceIDs newValues h
    refine ⟨requestFor c "statechange.cgi"
        [("ise_id", commaJoin deviceIDs), ("new_value", commaJoin newValues)],
      by simp [ChangeState, h], ?_, ?_⟩ <;>
      simp [requestFor, buildQuery, qset]
  · intro w c deviceIDs names values h1 h2
    refine ⟨requestFor c "mastervaluechange.cgi"
        [("device_id", commaJoin deviceIDs), ("name", commaJoin names),
          ("value", commaJoin values)],
      by simp [ChangeMasterValue, h1, h2], ?_, ?_, ?_⟩ <;>
      simp [requestFor, buildQuery, qset]

/-- Witness for C9 at concrete equal-length inputs. -/
theorem c9_equal_lengths_comma_joined_witness :
    (∃ r, (ChangeState exW200 exClient ["12345", "67"] ["0.20", "1"]).2 = [r] ∧
      r.query "ise_id" = some (commaJoin ["12345", "67"]) ∧
      r.query "new_value" = some (commaJoin ["0.20", "1"])) ∧
    (∃ r, (ChangeMasterValue exW200 exClient ["1"] ["n"] ["v"]).2 = [r] ∧
      r.query "device_id" = some (commaJoin ["1"]) ∧
      r.query "name" = some (commaJoin ["n"]) ∧
      r.query "value" = some (commaJoin ["v"])) :=
  ⟨c9_equal_lengths_comma_joined.1 exW200 exClient _ _ (by decide),
    c9_equal_lengths_comma_joined.2 exW200 exClient _ _ _ (by decide) (by decide)⟩

/-- C2: a body that is already valid UTF-8 passes through `convertToUTF8`
unchanged and without error. -/
theorem c2_utf8_identity (data : List Nat) (h : Utf8Valid data = true) :
    convertToUTF8 data = .ok data := by
  simp [convertToUTF8, h]

/-- Witness for C2 on the concrete valid-UTF-8 body `"<a>ä</a>"`. -/
theorem c2_utf8_identity_witness :
    Utf8Valid [60, 97, 62, 195, 164, 60, 47, 97, 62] = true ∧
    convertToUTF8 [60, 97, 62, 195, 164, 60, 47, 97, 62] =
      .ok [60, 97, 62, 195, 164, 60, 47, 97, 62] :=
  ⟨by decide, c2_utf8_identity _ (by decide)⟩

/-- C7: `charsetReader` hands back the ISO-8859-1 transcoding reader for the
names `iso-8859-1`/`latin1`, the Windows-1252 reader for
`windows-1252`/`cp1252` (all compared lowercased), and an explicit
`unsupported charset` error for every other name. -/
theorem c7_charset_reader_cases (cs : String) :
    ((goToLower cs = "iso-8859-1" ∨ goToLower cs = "latin1") →
      charsetReader cs = .ok .iso8859_1) ∧
    ((goToLower cs = "windows-1252" ∨ goToLower cs = "cp1252") →
      charsetReader cs = .ok .windows1252) ∧
    (goToLower cs ≠ "iso-8859-1" → goToLower cs ≠ "latin1" →
      goToLower cs ≠ "windows-1252" → goToLower cs ≠ "cp1252" →
      charsetReader cs = .error ("unsupported charset: " ++ cs)) := by
  refine ⟨fun h => ?_, fun h => ?_, fun h1 h2 h3 h4 => ?_⟩
  · simp [charsetReader, h]
  · rcases h with h | h <;> simp [charsetReader, h]
  · simp [charsetReader, h1, h2, h3, h4]

/-- Witness for C7 on the names `Latin1`, `İSO-8859-1` (whose dotted capital
I lowercases to ASCII `i`), `CP1252` and `UTF-8`. -/
theorem c7_charset_reader_cases_witness :
    charsetReader "Latin1" = .ok .iso8859_1 ∧
    charsetReader "İSO-8859-1" = .ok .iso8859_1 ∧
    charsetReader "CP1252" = .ok .windows1252 ∧
    charsetReader "UTF-8" = .error ("unsupported charset: " ++ "UTF-8") :=
  ⟨(c7_charset_reader_cases "Latin1").1 (by decide),
    (c7_charset_reader_cases "İSO-8859-1").1 (by decide),
    (c7_charset_reader_cases "CP1252").2.1 (by decide),
    (c7_charset_reader_cases "UTF-8").2.2 (by decide) (by decide) (by decide) (by decide)⟩

/-- C8: when the decoded `sysvar.cgi` response holds no `systemVariable`
record, `GetSystemVariable` returns the `system variable not found` error;
when it holds at least one, the first record is returned. -/
theorem c8_sysvar_empty_error_first_otherwise (w : World) (c : Client)
    (iseID : String) (showText : Bool) (body : List Nat)
    (resp : SystemVariableListResponse)
    (hraw : rawCore w.net c "sysvar.cgi" (sysvarParams iseID showText) = .ok body)
    (hdec : w.dec.sysVarList body = .ok resp) :
    (resp.SystemVariables = [] →
      (GetSystemVariable w c iseID showText).1 = .error "system variable not found") ∧
    (∀ v vs, resp.SystemVariables = v :: vs →
      (GetSystemVariable w c iseID showText).1 = .ok v) := by
  constructor
  · intro he
    simp [GetSystemVariable, hraw, hdec, he]
  · intro v vs he
    simp [GetSystemVariable, hraw, hdec, he]

/-- Witness for C8: one world decoding to `[exSysVar]`, one to `[]`. -/
theorem c8_sysvar_empty_error_first_otherwise_witness :
    (GetSystemVariable exWSysVarEmpty exClient "950" true).1 =
      .error "system variable not found" ∧
    (GetSystemVariable exWSysVar exClient "950" true).1 = .ok exSysVar :=
  ⟨(c8_sysvar_empty_error_first_otherwise exWSysVarEmpty exClient "950" true [] ⟨[]⟩
      rfl rfl).1 rfl,
    (c8_sysvar_empty_error_first_otherwise exWSysVar exClient "950" true [] ⟨[exSysVar]⟩
      rfl rfl).2 exSysVar [] rfl⟩

/-- C4: a nonempty device id absent from the decoded state list makes
`GetStateList` return the empty device list and no error. -/
theorem c4_filter_absent_id_empty (w : World) (c : Client) (deviceID : String)
    (showInternal showRemote : Bool) (body : List Nat) (resp : StateListResponse)
    (hid : deviceID ≠ "")
    (hraw : rawCore w.net c "statelist.cgi" (stateListParams showInternal showRemote) = .ok body)
    (hdec : w.dec.stateList body = .ok resp)
    (habsent : ∀ d ∈ resp.Devices, d.IseID ≠ deviceID) :
    (GetStateList w c deviceID showInternal showRemote).1 = .ok [] := by
  simp only [GetStateList, decodeWith, hraw, hdec]
  rw [if_pos hid]
  congr 1
  rw [List.filter_eq_nil_iff]
  intro d hd
  simpa using habsent d hd

/-- Witness for C4: filtering the decoded list `[exDevice]` (id `7`) by the
absent id `42`. -/
theorem c4_filter_absent_id_empty_witness :
    (GetStateList exWState exClient "42" false false).1 = .ok [] :=
  c4_filter_absent_id_empty exWState exClient "42" false false [] ⟨[exDevice]⟩
    (by decide) rfl rfl (by decide)

/-! ## Transport-error lemmas -/

theorem rawCore_error_of_non200 (net : Net) (hw : NetAllNon200 net) (c : Client)
    (endpoint : String) (params : List (String × String)) :
    ∃ m, rawCore net c endpoint params = .error m := by
  unfold rawCore
  cases hn : net (requestFor c endpoint params) with
  | error e => exact ⟨"HTTP request failed: " ++ e, rfl⟩
  | ok resp =>
    have h200 := hw _ _ hn
    refine ⟨"HTTP error: " ++ toString resp.statusCode, ?_⟩
    simp [h200]

/-- C6: if every response the transport produces has a non-200 status, every
operation returns an error (no decoded record), and its result does not
depend on the XML decoders at all — the body is never decoded. -/
theorem c6_non200_terminal_error (w : World) (c : Client) (hw : NetAllNon200 w.net) :
    ((∃ m, (GetVersion w c).1 = .error m) ∧
      ∀ dec', (GetVersion ⟨w.net, dec'⟩ c).1 = (GetVersion w c).1) ∧
    (∀ dIDs si sr, (∃ m, (GetDeviceList w c dIDs si sr).1 = .error m) ∧
      ∀ dec', (GetDeviceList ⟨w.net, dec'⟩ c dIDs si sr).1 = (GetDeviceList w c dIDs si sr).1) ∧
    ((∃ m, (GetDeviceTypes w c).1 = .error m) ∧
      ∀ dec', (GetDeviceTypes ⟨w.net, dec'⟩ c).1 = (GetDeviceTypes w c).1) ∧
    (∀ dID si sr, (∃ m, (GetStateList w c dID si sr).1 = .error m) ∧
      ∀ dec', (GetStateList ⟨w.net, dec'⟩ c dID si sr).1 = (GetStateList w c dID si sr).1) ∧
    (∀ dIDs cIDs dpIDs, (∃ m, (GetState w c dIDs cIDs dpIDs).1 = .error m) ∧
      ∀ dec', (GetState ⟨w.net, dec'⟩ c dIDs cIDs dpIDs).1 = (GetState w c dIDs cIDs dpIDs).1) ∧
    (∀ dIDs vals, (∃ m, (ChangeState w c dIDs vals).1 = .error m) ∧
      ∀ dec', (ChangeState ⟨w.net, dec'⟩ c dIDs vals).1 = (ChangeState w c dIDs vals).1) ∧
    ((∃ m, (GetProgramList w c).1 = .error m) ∧
      ∀ dec', (GetProgramList ⟨w.net, dec'⟩ c).1 = (GetProgramList w c).1) ∧
    (∀ pid cond, (∃ m, (RunProgram w c pid cond).1 = .error m) ∧
      ∀ dec', (RunProgram ⟨w.net, dec'⟩ c pid cond).1 = (RunProgram w c pid cond).1) ∧
    (∀ pid act vis, (∃ m, (ChangeProgramActions w c pid act vis).1 = .error m) ∧
      ∀ dec', (ChangeProgramActions ⟨w.net, dec'⟩ c pid act vis).1 =
        (ChangeProgramActions w c pid act vis).1) ∧
    ((∃ m, (GetRoomList w c).1 = .error m) ∧
      ∀ dec', (GetRoomList ⟨w.net, dec'⟩ c).1 = (GetRoomList w c).1) ∧
    ((∃ m, (GetFunctionList w c).1 = .error m) ∧
      ∀ dec', (GetFunctionList ⟨w.net, dec'⟩ c).1 = (GetFunctionList w c).1) ∧
    (∀ st, (∃ m, (GetSystemVariableList w c st).1 = .error m) ∧
      ∀ dec', (GetSystemVariableList ⟨w.net, dec'⟩ c st).1 = (GetSystemVariableList w c st).1) ∧
    (∀ iseID st, (∃ m, (GetSystemVariable w c iseID st).1 = .error m) ∧
      ∀ dec', (GetSystemVariable ⟨w.net, dec'⟩ c iseID st).1 = (GetSystemVariable w c iseID st).1) ∧
    (∀ d, (∃ m, (RegisterToken w c d).1 = .error m) ∧
      ∀ dec', (RegisterToken ⟨w.net, dec'⟩ c d).1 = (RegisterToken w c d).1) ∧
    (∀ tid, (∃ m, (RevokeToken w c tid).1 = .error m) ∧
      ∀ dec', (RevokeToken ⟨w.net, dec'⟩ c tid).1 = (RevokeToken w c tid).1) ∧
    (∀ dIDs ns, (∃ m, (GetMasterValue w c dIDs ns).1 = .error m) ∧
      ∀ dec', (GetMasterValue ⟨w.net, dec'⟩ c dIDs ns).1 = (GetMasterValue w c dIDs ns).1) ∧
    (∀ dIDs ns vs, (∃ m, (ChangeMasterValue w c dIDs ns vs).1 = .error m) ∧
      ∀ dec', (ChangeMasterValue ⟨w.net, dec'⟩ c dIDs ns vs).1 =
        (ChangeMasterValue w c dIDs ns vs).1) := by
  refine ⟨?_, ?_, ?_, ?_, ?_, ?_, ?_, ?_, ?_, ?_, ?_, ?_, ?_, ?_, ?_, ?_, ?_⟩
  · obtain ⟨m, hm⟩ := rawCore_error_of_non200 w.net hw c "version.cgi" []
    exact ⟨⟨m, by simp [GetVersion, decodeWith, hm]⟩,
      fun dec' => by simp [GetVersion, decodeWith, hm]⟩
  · intro dIDs si sr
    obtain ⟨m, hm⟩ := rawCore_error_of_non200 w.net hw c "devicelist.cgi"
      (deviceListParams dIDs si sr)
    exact ⟨⟨m, by simp [GetDeviceList, decodeWith, hm]⟩,
      fun dec' => by simp [GetDeviceList, decodeWith, hm]⟩
  · obtain ⟨m, hm⟩ := rawCore_error_of_non200 w.net hw c "devicetypelist.cgi" []
    exact ⟨⟨m, by simp [GetDeviceTypes, decodeWith, hm]⟩,
      fun dec' => by simp [GetDeviceTypes, decodeWith, hm]⟩
  · intro dID si sr
    obtain ⟨m, hm⟩ := rawCore_error_of_non200 w.net hw c "statelist.cgi" (stateListParams si sr)
    exact ⟨⟨m, by simp [GetStateList, decodeWith, hm]⟩,
      fun dec' => by simp [GetStateList, decodeWith, hm]⟩
  · intro dIDs cIDs dpIDs
    obtain ⟨m, hm⟩ := rawCore_error_of_non200 w.net hw c "state.cgi"
      (stateParams dIDs cIDs dpIDs)
    exact ⟨⟨m, by simp [GetState, decodeWith, hm]⟩,
      fun dec' => by simp [GetState, decodeWith, hm]⟩
  · intro dIDs vals
    by_cases hlen : dIDs.length ≠ vals.length
    · exact ⟨⟨"device IDs and new values must have the same length",
        by simp [ChangeState, hlen]⟩, fun dec' => by simp [ChangeState, hlen]⟩
    · obtain ⟨m, hm⟩ := rawCore_error_of_non200 w.net hw c "statechange.cgi"
        [("ise_id", commaJoin dIDs), ("new_value", commaJoin vals)]
      exact ⟨⟨m, by simp [ChangeState, hlen, apiCore, decodeWith, dropOk, hm]⟩,
        fun dec' => by simp [ChangeState, hlen, apiCore, decodeWith, dropOk, hm]⟩
  · obtain ⟨m, hm⟩ := rawCore_error_of_non200 w.net hw c "programlist.cgi" []
    exact ⟨⟨m, by simp [GetProgramList, decodeWith, hm]⟩,
      fun dec' => by simp [GetProgramList, decodeWith, hm]⟩
  · intro pid cond
    obtain ⟨m, hm⟩ := rawCore_error_of_non200 w.net hw c "runprogram.cgi"
      (runProgramParams pid cond)
    exact ⟨⟨m, by simp [RunProgram, apiCore, decodeWith, dropOk, hm]⟩,
      fun dec' => by simp [RunProgram, apiCore, decodeWith, dropOk, hm]⟩
  · intro pid act vis
    obtain ⟨m, hm⟩ := rawCore_error_of_non200 w.net hw c "programactions.cgi"
      (programActionsParams pid act vis)
    exact ⟨⟨m, by simp [ChangeProgramActions, apiCore, decodeWith, dropOk, hm]⟩,
      fun dec' => by simp [ChangeProgramActions, apiCore, decodeWith, dropOk, hm]⟩
  · obtain ⟨m, hm⟩ := rawCore_error_of_non200 w.net hw c "roomlist.cgi" []
    exact ⟨⟨m, by simp [GetRoomList, decodeWith, hm]⟩,
      fun dec' => by simp [GetRoomList, decodeWith, hm]⟩
  · obtain ⟨m, hm⟩ := rawCore_error_of_non200 w.net hw c "functionlist.cgi" []
    exact ⟨⟨m, by simp [GetFunctionList, decodeWith, hm]⟩,
      fun dec' => by simp [GetFunctionList, decodeWith, hm]⟩
  · intro st
    obtain ⟨m, hm⟩ := rawCore_error_of_non200 w.net hw c "sysvarlist.cgi"
      [("text", textParam st)]
    exact ⟨⟨m, by simp [GetSystemVariableList, decodeWith, hm]⟩,
      fun dec' => by simp [GetSystemVariableList, decodeWith, hm]⟩
  · intro iseID st
    obtain ⟨m, hm⟩ := rawCore_error_of_non200 w.net hw c "sysvar.cgi" (sysvarParams iseID st)
    exact ⟨⟨m, by simp [GetSystemVariable, hm]⟩,
      fun dec' => by simp [GetSystemVariable, hm]⟩
  · intro d
    obtain ⟨m, hm⟩ := rawCore_error_of_non200 w.net hw c "tokenregister.cgi" [("desc", d)]
    exact ⟨⟨m, by simp [RegisterToken, apiCore, decodeWith, dropOk, hm]⟩,
      fun dec' => by simp [RegisterToken, apiCore, decodeWith, dropOk, hm]⟩
  · intro tid
    obtain ⟨m, hm⟩ := rawCore_error_of_non200 w.net hw c "tokenrevoke.cgi" [("sid", tid)]
    exact ⟨⟨m, by simp [RevokeToken, apiCore, decodeWith, dropOk, hm]⟩,
      fun dec' => by simp [RevokeToken, apiCore, decodeWith, dropOk, hm]⟩
  · intro dIDs ns
    obtain ⟨m, hm⟩ := rawCore_error_of_non200 w.net hw c "mastervalue.cgi"
      (masterValueParams dIDs ns)
    exact ⟨⟨m, by simp [GetMasterValue, decodeWith, hm]⟩,
      fun dec' => by simp [GetMasterValue, decodeWith, hm]⟩
  · intro dIDs ns vs
    by_cases hlen : dIDs.length ≠ ns.length ∨ ns.length ≠ vs.length
    · exact ⟨⟨"device IDs, names, and values must have the same length",
        by simp [ChangeMasterValue, hlen]⟩,
        fun dec' => by simp [ChangeMasterValue, hlen]⟩
    · obtain ⟨m, hm⟩ := rawCore_error_of_non200 w.net hw c "mastervaluechange.cgi"
        [("device_id", commaJoin dIDs), ("name", commaJoin ns), ("value", commaJoin vs)]
      exact ⟨⟨m, by simp [ChangeMasterValue, hlen, apiCore, decodeWith, dropOk, hm]⟩,
        fun dec' => by simp [ChangeMasterValue, hlen, apiCore, decodeWith, dropOk, hm]⟩

/-- Witness for C6: against an all-404 transport, `GetVersion` errors and is
decoder-independent. -/
theorem c6_non200_terminal_error_witness :
    ((∃ m, (GetVersion exW404 exClient).1 = .error m) ∧
      (GetVersion ⟨exW404.net, altDecoders⟩ exClient).1 = (GetVersion exW404 exClient).1) :=
  have hw : NetAllNon200 exW404.net := by
    intro req resp h
    injection h with h
    rw [← h]
    decide
  ⟨(c6_non200_terminal_error exW404 exClient hw).1.1,
    (c6_non200_terminal_error exW404 exClient hw).1.2 altDecoders⟩

/-! ## Parameter-key lemmas: no operation parameter list uses the key sid,
except the one of RevokeToken -/

theorem mem_ite_nil {α : Type} {c : Prop} [inst : Decidable c] {l : List α} {p : α}
    (h : p ∈ if c then l else []) : p ∈ l := by
  split at h
  · exact h
  · simp at h

theorem fst_ne_sid_of_mem_ite_singleton {c : Prop} [inst : Decidable c]
    {k v : String} {p : String × String} (hk : k ≠ "sid")
    (h : p ∈ if c then [(k, v)] else []) : p.1 ≠ "sid" := by
  have h := mem_ite_nil h
  simp only [List.mem_singleton] at h
  subst h
  exact hk

theorem deviceListParams_no_sid (dIDs : List String) (si sr : Bool) :
    ∀ p ∈ deviceListParams dIDs si sr, p.1 ≠ "sid" := by
  intro p hp
  simp only [deviceListParams, List.mem_append] at hp
  rcases hp with (h | h) | h
  · exact fst_ne_sid_of_mem_ite_singleton (by simp) h
  · exact fst_ne_sid_of_mem_ite_singleton (by simp) h
  · exact fst_ne_sid_of_mem_ite_singleton (by simp) h

theorem stateListParams_no_sid (si sr : Bool) :
    ∀ p ∈ stateListParams si sr, p.1 ≠ "sid" := by
  intro p hp
  simp only [stateListParams, List.mem_append] at hp
  rcases hp with h | h
  · exact fst_ne_sid_of_mem_ite_singleton (by simp) h
  · exact fst_ne_sid_of_mem_ite_singleton (by simp) h

theorem stateParams_no_sid (dIDs cIDs dpIDs : List String) :
    ∀ p ∈ stateParams dIDs cIDs dpIDs, p.1 ≠ "sid" := by
  intro p hp
  simp only [stateParams, List.mem_append] at hp
  rcases hp with (h | h) | h
  · exact fst_ne_sid_of_mem_ite_singleton (by simp) h
  · exact fst_ne_sid_of_mem_ite_singleton (by simp) h
  · exact fst_ne_sid_of_mem_ite_singleton (by simp) h

theorem runProgramParams_no_sid (pid : String) (cond : Bool) :
    ∀ p ∈ runProgramParams pid cond, p.1 ≠ "sid" := by
  intro p hp
  simp only [runProgramParams, List.mem_append, List.mem_singleton] at hp
  rcases hp with h | h
  · subst h
    simp
  · exact fst_ne_sid_of_mem_ite_singleton (by simp) h

theorem programActionsParams_no_sid (pid : String) (act vis : Option Bool) :
    ∀ p ∈ programActionsParams pid act vis, p.1 ≠ "sid" := by
  intro p hp
  unfold programActionsParams at hp
  cases act with
  | none =>
    cases vis with
    | none =>
      simp only [List.append_nil, List.mem_singleton] at hp
      subst hp
      simp
    | some b =>
      simp only [List.append_nil, List.singleton_append, List.mem_cons,
        List.mem_singleton, List.not_mem_nil, or_false] at hp
      rcases hp with h | h <;> subst h <;> simp
  | some b =>
    cases vis with
    | none =>
      simp only [List.append_nil, List.singleton_append, List.mem_cons,
        List.mem_singleton, List.not_mem_nil, or_false] at hp
      rcases hp with h | h <;> subst h <;> simp
    | some b2 =>
      simp only [List.singleton_append, List.mem_cons, List.mem_append,
        List.mem_singleton, List.not_mem_nil, or_false] at hp
      rcases hp with (h | h) | h <;> subst h <;> simp

theorem sysvarParams_no_sid (iseID : String) (st : Bool) :
    ∀ p ∈ sysvarParams iseID st, p.1 ≠ "sid" := by
  intro p hp
  simp only [sysvarParams, List.mem_cons, List.mem_singleton,
    List.not_mem_nil, or_false] at hp
  rcases hp with h | h <;> subst h <;> simp

theorem masterValueParams_no_sid (dIDs ns : List String) :
    ∀ p ∈ masterValueParams dIDs ns, p.1 ≠ "sid" := by
  intro p hp
  simp only [masterValueParams, List.mem_append] at hp
  rcases hp with h | h
  · exact fst_ne_sid_of_mem_ite_singleton (by simp) h
  · exact fst_ne_sid_of_mem_ite_singleton (by simp) h

/-- Counterexample for C5: an issued request that does not carry the client
token `t` under `sid`.  `RevokeToken` sets the parameter `sid` to its
`tokenID` argument, which overrides the client token in the final query. -/
theorem c5_counterexample_revoke_token :
    ∃ r ∈ (RevokeToken exW200 exClient "other").2,
      r.query "sid" ≠ some exClient.token := by
  refine ⟨requestFor exClient "tokenrevoke.cgi" [("sid", "other")], ?_, ?_⟩
  · simp [RevokeToken]
  · decide

/-- C5 (amended): every issued request carries a `sid` query parameter; for
every operation except `RevokeToken` its value is the client token, while
`RevokeToken` sends its `tokenID` argument as `sid`, overriding the client
token. -/
theorem c5_sid_on_every_request (w : World) (c : Client) :
    (∀ r ∈ (GetVersion w c).2, r.query "sid" = some c.token) ∧
    (∀ dIDs si sr, ∀ r ∈ (GetDeviceList w c dIDs si sr).2,
      r.query "sid" = some c.token) ∧
    (∀ r ∈ (GetDeviceTypes w c).2, r.query "sid" = some c.token) ∧
    (∀ dID si sr, ∀ r ∈ (GetStateList w c dID si sr).2,
      r.query "sid" = some c.token) ∧
    (∀ dIDs cIDs dpIDs, ∀ r ∈ (GetState w c dIDs cIDs dpIDs).2,
      r.query "sid" = some c.token) ∧
    (∀ dIDs vals, ∀ r ∈ (ChangeState w c dIDs vals).2,
      r.query "sid" = some c.token) ∧
    (∀ r ∈ (GetProgramList w c).2, r.query "sid" = some c.token) ∧
    (∀ pid cond, ∀ r ∈ (RunProgram w c pid cond).2,
      r.query "sid" = some c.token) ∧
    (∀ pid act vis, ∀ r ∈ (ChangeProgramActions w c pid act vis).2,
      r.query "sid" = some c.token) ∧
    (∀ r ∈ (GetRoomList w c).2, r.query "sid" = some c.token) ∧
    (∀ r ∈ (GetFunctionList w c).2, r.query "sid" = some c.token) ∧
    (∀ st, ∀ r ∈ (GetSystemVariableList w c st).2,
      r.query "sid" = some c.token) ∧
    (∀ iseID st, ∀ r ∈ (GetSystemVariable w c iseID st).2,
      r.query "sid" = some c.token) ∧
    (∀ d, ∀ r ∈ (RegisterToken w c d).2, r.query "sid" = some c.token) ∧
    (∀ tid, ∀ r ∈ (RevokeToken w c tid).2, r.query "sid" = some tid) ∧
    (∀ dIDs ns, ∀ r ∈ (GetMasterValue w c dIDs ns).2,
      r.query "sid" = some c.token) ∧
    (∀ dIDs ns vs, ∀ r ∈ (ChangeMasterValue w c dIDs ns vs).2,
      r.query "sid" = some c.token) := by
  refine ⟨?_, ?_, ?_, ?_, ?_, ?_, ?_, ?_, ?_, ?_, ?_, ?_, ?_, ?_, ?_, ?_, ?_⟩
  · intro r hr
    simp only [GetVersion, List.mem_singleton] at hr
    subst hr
    exact requestFor_sid c _ _ (by intro p hp; simp at hp)
  · intro dIDs si sr r hr
    simp only [GetDeviceList, List.mem_singleton] at hr
    subst hr
    exact requestFor_sid c _ _ (deviceListParams_no_sid dIDs si sr)
  · intro r hr
    simp only [GetDeviceTypes, List.mem_singleton] at hr
    subst hr
    exact requestFor_sid c _ _ (by intro p hp; simp at hp)
  · intro dID si sr r hr
    simp only [GetStateList, List.mem_singleton] at hr
    subst hr
    exact requestFor_sid c _ _ (stateListParams_no_sid si sr)
  · intro dIDs cIDs dpIDs r hr
    simp only [GetState, List.mem_singleton] at hr
    subst hr
    exact requestFor_sid c _ _ (stateParams_no_sid dIDs cIDs dpIDs)
  · intro dIDs vals r hr
    by_cases hlen : dIDs.length ≠ vals.length
    · simp [ChangeState, hlen] at hr
    · simp only [ChangeState, if_neg hlen, List.mem_singleton] at hr
      subst hr
      refine requestFor_sid c _ _ ?_
      intro p hp
      simp only [List.mem_cons, List.mem_singleton, List.not_mem_nil, or_false] at hp
      rcases hp with h | h <;> subst h <;> simp
  · intro r hr
    simp only [GetProgramList, List.mem_singleton] at hr
    subst hr
    exact requestFor_sid c _ _ (by intro p hp; simp at hp)
  · intro pid cond r hr
    simp only [RunProgram, List.mem_singleton] at hr
    subst hr
    exact requestFor_sid c _ _ (runProgramParams_no_sid pid cond)
  · intro pid act vis r hr
    simp only [ChangeProgramActions, List.mem_singleton] at hr
    subst hr
    exact requestFor_sid c _ _ (programActionsParams_no_sid pid act vis)
  · intro r hr
    simp only [GetRoomList, List.mem_singleton] at hr
    subst hr
    exact requestFor_sid c _ _ (by intro p hp; simp at hp)
  · intro r hr
    simp only [GetFunctionList, List.mem_singleton] at hr
    subst hr
    exact requestFor_sid c _ _ (by intro p hp; simp at hp)
  · intro st r hr
    simp only [GetSystemVariableList, List.mem_singleton] at hr
    subst hr
    refine requestFor_sid c _ _ ?_
    intro p hp
    simp only [List.mem_singleton] at hp
    subst hp
    simp
  · intro iseID st r hr
    simp only [GetSystemVariable, List.mem_singleton] at hr
    subst hr
    exact requestFor_sid c _ _ (sysvarParams_no_sid iseID st)
  · intro d r hr
    simp only [RegisterToken, List.mem_singleton] at hr
    subst hr
    refine requestFor_sid c _ _ ?_
    intro p hp
    simp only [List.mem_singleton] at hp
    subst hp
    simp
  · intro tid r hr
    simp only [RevokeToken, List.mem_singleton] at hr
    subst hr
    show buildQuery c.token [("sid", tid)] "sid" = some tid
    simp [buildQuery, qset]
  · intro dIDs ns r hr
    simp only [GetMasterValue, List.mem_singleton] at hr
    subst hr
    exact requestFor_sid c _ _ (masterValueParams_no_sid dIDs ns)
  · intro dIDs ns vs r hr
    by_cases hlen : dIDs.length ≠ ns.length ∨ ns.length ≠ vs.length
    · simp [ChangeMasterValue, hlen] at hr
    · simp only [ChangeMasterValue, if_neg hlen, List.mem_singleton] at hr
      subst hr
      refine requestFor_sid c _ _ ?_
      intro p hp
      simp only [List.mem_cons, List.mem_singleton, List.not_mem_nil, or_false] at hp
      rcases hp with h | h | h <;> subst h <;> simp

/-- Witness for C5 (amended): the one `GetVersion` request of the sample
client carries `sid = t`, and the one `RevokeToken` request carries its
argument. -/
theorem c5_sid_on_every_request_witness :
    (requestFor exClient "version.cgi" []).query "sid" = some exClient.token ∧
    (requestFor exClient "tokenrevoke.cgi" [("sid", "other")]).query "sid" =
      some "other" :=
  ⟨(c5_sid_on_every_request exW200 exClient).1 (requestFor exClient "version.cgi" [])
      (by simp [GetVersion]),
    (c5_sid_on_every_request exW200 exClient).2.2.2.2.2.2.2.2.2.2.2.2.2.2.1 "other"
      (requestFor exClient "tokenrevoke.cgi" [("sid", "other")])
      (by simp [RevokeToken])⟩

/-! ## Trimming lemmas -/

theorem head?_dropWhile_false {α : Type} (p : α → Bool) :
    ∀ (l : List α) (c : α), (l.dropWhile p).head? = some c → p c = false := by
  intro l
  induction l with
  | nil =>
    intro c h
    simp [List.dropWhile] at h
  | cons a t ih =>
    intro c h
    by_cases hpa : p a = true
    · rw [List.dropWhile_cons_of_pos hpa] at h
      exact ih c h
    · rw [List.dropWhile_cons_of_neg hpa] at h
      simp only [List.head?_cons, Option.some.injEq] at h
      subst h
      simpa using hpa

theorem trimRightSpace_decomp (l : List Char) :
    ∃ t, l = trimRightSpace l ++ t := by
  refine ⟨(l.reverse.takeWhile isGoSpace).reverse, ?_⟩
  unfold trimRightSpace
  conv_rhs => rw [← List.reverse_append]
  rw [List.takeWhile_append_dropWhile, List.reverse_reverse]

theorem head?_trimRightSpace (l : List Char) (c : Char)
    (h : (trimRightSpace l).head? = some c) : l.head? = some c := by
  obtain ⟨t, ht⟩ := trimRightSpace_decomp l
  rw [ht]
  cases hz : trimRightSpace l with
  | nil => rw [hz] at h; simp at h
  | cons x xs =>
    rw [hz] at h
    simp only [List.head?_cons, Option.some.injEq] at h
    subst h
    simp

theorem getLast?_trimRightSpace (l : List Char) (c : Char)
    (h : (trimRightSpace l).getLast? = some c) : isGoSpace c = false := by
  unfold trimRightSpace at h
  rw [List.getLast?_reverse] at h
  exact head?_dropWhile_false _ _ _ h

/-- C10: `GetVersion` returns the decoded version text with surrounding
whitespace stripped; in particular the returned string never starts or ends
with whitespace. -/
theorem c10_version_trimmed (w : World) (c : Client) (body : List Nat)
    (vr : VersionResponse)
    (hraw : rawCore w.net c "version.cgi" [] = .ok body)
    (hdec : w.dec.version body = .ok vr) :
    (GetVersion w c).1 = .ok (goTrimSpace vr.Value) ∧
    ∀ s, (GetVersion w c).1 = .ok s →
      (∀ ch, s.data.head? = some ch → isGoSpace ch = false) ∧
      (∀ ch, s.data.getLast? = some ch → isGoSpace ch = false) := by
  have h1 : (GetVersion w c).1 = .ok (goTrimSpace vr.Value) := by
    simp [GetVersion, decodeWith, hraw, hdec]
  refine ⟨h1, ?_⟩
  intro s hs
  rw [h1] at hs
  simp only [Except.ok.injEq] at hs
  subst hs
  constructor
  · intro ch hch
    simp only [goTrimSpace] at hch
    exact head?_dropWhile_false _ _ _ (head?_trimRightSpace _ _ hch)
  · intro ch hch
    simp only [goTrimSpace] at hch
    exact getLast?_trimRightSpace _ _ hch

/-- Witness for C10: the padded version text `" 1.25 "` comes back as
`"1.25"`. -/
theorem c10_version_trimmed_witness :
    (GetVersion exWVersion exClient).1 = .ok (goTrimSpace " 1.25 ") ∧
    goTrimSpace " 1.25 " = "1.25" :=
  ⟨(c10_version_trimmed exWVersion exClient [] ⟨" 1.25 "⟩ rfl rfl).1, by decide⟩

/-! ## UTF-8 validity lemmas -/

theorem utf8Valid_cons1 (b : Nat) (t : List Nat) (hb : b < 128) :
    utf8Step [] (b :: t) = utf8Step [] t := by
  rw [utf8Step, if_pos hb]

theorem utf8Valid_cons2 (b0 b1 : Nat) (t : List Nat)
    (h0 : 194 ≤ b0) (h0' : b0 ≤ 223) (h1 : 128 ≤ b1) (h1' : b1 ≤ 191) :
    utf8Step [] (b0 :: b1 :: t) = utf8Step [] t := by
  rw [utf8Step, if_neg (by omega : ¬b0 < 128), if_pos ⟨h0, h0'⟩,
    utf8Step, if_pos ⟨h1, h1'⟩]

theorem utf8Step_ascii_append (l u : List Nat) (h : AllAscii l) :
    utf8Step [] (l ++ u) = utf8Step [] u := by
  induction l with
  | nil => rfl
  | cons b t ih =>
    rw [List.cons_append, utf8Valid_cons1 _ _ (h b (List.mem_cons_self _ _)),
      ih (fun x hx => h x (List.mem_cons_of_mem _ hx))]

theorem utf8Valid_latin1Decode : ∀ data : List Nat, (∀ b ∈ data, b < 256) →
    Utf8Valid (latin1DecodeBytes data) = true := by
  intro data
  induction data with
  | nil => intro _; rfl
  | cons b t ih =>
    intro h
    have hb := h b (List.mem_cons_self _ _)
    have ht := fun x hx => h x (List.mem_cons_of_mem _ hx)
    by_cases h128 : b < 128
    · have henc : encodeLatin1Char b = [b] := by
        rw [encodeLatin1Char, if_pos h128]
      rw [Utf8Valid,
        show latin1DecodeBytes (b :: t) = encodeLatin1Char b ++ latin1DecodeBytes t
          from rfl,
        henc, List.singleton_append, utf8Valid_cons1 _ _ h128]
      exact ih ht
    · have henc : encodeLatin1Char b = [192 + b / 64, 128 + b % 64] := by
        rw [encodeLatin1Char, if_neg h128]
      rw [Utf8Valid,
        show latin1DecodeBytes (b :: t) = encodeLatin1Char b ++ latin1DecodeBytes t
          from rfl,
        henc,
        show [192 + b / 64, 128 + b % 64] ++ latin1DecodeBytes t =
          (192 + b / 64) :: (128 + b % 64) :: latin1DecodeBytes t from rfl,
        utf8Valid_cons2 _ _ _ (by omega) (by omega) (by omega) (by omega)]
      exact ih ht

/-! ## Pattern-search and replacement lemmas -/

theorem hasPre_exists : ∀ pat s : List Nat, hasPre pat s = true → ∃ u, s = pat ++ u := by
  intro pat
  induction pat with
  | nil => intro s _; exact ⟨s, rfl⟩
  | cons p ps ih =>
    intro s h
    cases s with
    | nil => simp [hasPre] at h
    | cons b bs =>
      rw [hasPre] at h
      by_cases hpb : p = b
      · rw [if_pos hpb] at h
        obtain ⟨u, hu⟩ := ih bs h
        subst hpb
        exact ⟨u, by rw [List.cons_append, hu]⟩
      · rw [if_neg hpb] at h
        simp at h

theorem hasPre_append_self : ∀ l u : List Nat, hasPre l (l ++ u) = true := by
  intro l
  induction l with
  | nil => intro u; rfl
  | cons p ps ih =>
    intro u
    rw [List.cons_append, hasPre, if_pos rfl]
    exact ih u

theorem containsSeq_of_hasPre (pat s : List Nat) (h : hasPre pat s = true) :
    containsSeq pat s = true := by
  cases s with
  | nil =>
    cases pat with
    | nil => rfl
    | cons p ps => simp [hasPre] at h
  | cons b t =>
    rw [containsSeq, h, Bool.true_or]

theorem hasPre_false_of_ge (p : Nat) (ps : List Nat) (b : Nat) (t : List Nat)
    (hp : p < 128) (hb : 128 ≤ b) : hasPre (p :: ps) (b :: t) = false := by
  rw [hasPre, if_neg (by omega : ¬p = b)]

theorem replaceAll_of_not_contains (pat rep : List Nat) :
    ∀ s, containsSeq pat s = false → replaceAll pat rep s = s := by
  intro s
  induction s with
  | nil => intro _; rw [replaceAll]
  | cons b t ih =>
    intro h
    rw [containsSeq] at h
    simp only [Bool.or_eq_false_iff] at h
    rw [replaceAll, if_neg (by simp [h.1]), ih h.2]

theorem containsSeq_rep_replaceAll (pat rep : List Nat) (hne : pat ≠ []) :
    ∀ s, containsSeq pat s = true →
      containsSeq rep (replaceAll pat rep s) = true := by
  intro s
  induction s with
  | nil =>
    intro h
    cases pat with
    | nil => exact absurd rfl hne
    | cons p ps => simp [containsSeq, List.isEmpty] at h
  | cons b t ih =>
    intro h
    by_cases hp : hasPre pat (b :: t) = true
    · rw [replaceAll, if_pos ⟨hp, hne⟩]
      exact containsSeq_of_hasPre _ _ (hasPre_append_self rep _)
    · rw [replaceAll, if_neg (fun hc => hp hc.1)]
      rw [containsSeq] at h
      have h2 : containsSeq pat t = true := by
        simp only [Bool.or_eq_true] at h
        rcases h with h | h
        · exact absurd h hp
        · exact h
      rw [containsSeq, ih h2, Bool.or_true]

set_option maxHeartbeats 1600000 in
/-- The central preservation fact: replacing occurrences of an ASCII pattern
by an ASCII replacement keeps a byte sequence well-formed UTF-8.  Stated over
the automaton with an arbitrary admissible pending state. -/
theorem replaceAll_preserves_utf8_aux (pat rep : List Nat) (hp : AllAscii pat)
    (hr : AllAscii rep) (hne : pat ≠ []) :
    ∀ (n : Nat) (s : List Nat) (pend : List (Nat × Nat)), s.length ≤ n →
      PendOk pend → utf8Step pend s = true →
      utf8Step pend (replaceAll pat rep s) = true := by
  obtain ⟨p, ps, hpat⟩ : ∃ p ps, pat = p :: ps := by
    cases pat with
    | nil => exact absurd rfl hne
    | cons p ps => exact ⟨p, ps, rfl⟩
  have hp0 : p < 128 := hp p (by rw [hpat]; exact List.mem_cons_self _ _)
  have hpreF : ∀ (x : Nat) (xs : List Nat), 128 ≤ x →
      hasPre pat (x :: xs) = false := by
    intro x xs hx
    rw [hpat]
    exact hasPre_false_of_ge p ps x xs hp0 hx
  intro n
  induction n with
  | zero =>
    intro s pend hlen _ hs
    have hz : s = [] := List.length_eq_zero.mp (Nat.le_zero.mp hlen)
    subst hz
    rw [replaceAll]
    exact hs
  | succ n ih =>
    intro s pend hlen hpend hs
    cases s with
    | nil =>
      rw [replaceAll]
      exact hs
    | cons b rest =>
      cases pend with
      | cons e pend' =>
        obtain ⟨lo, hi⟩ := e
        rw [utf8Step] at hs
        by_cases hin : lo ≤ b ∧ b ≤ hi
        · rw [if_pos hin] at hs
          have hb128 : 128 ≤ b := le_trans (hpend (lo, hi) (List.mem_cons_self _ _)) hin.1
          rw [replaceAll, if_neg (by simp [hpreF b rest hb128])]
          rw [utf8Step, if_pos hin]
          refine ih rest pend' ?_ (fun x hx => hpend x (List.mem_cons_of_mem _ hx)) hs
          simp only [List.length_cons] at hlen
          omega
        · rw [if_neg hin] at hs
          simp at hs
      | nil =>
        by_cases hpre : hasPre pat (b :: rest) = true
        · rw [replaceAll, if_pos ⟨hpre, hne⟩]
          obtain ⟨u, hu⟩ := hasPre_exists pat (b :: rest) hpre
          rw [hpat, List.cons_append] at hu
          injection hu with hb hrest
          have hdrop : rest.drop (pat.length - 1) = u := by
            rw [hrest, hpat, List.length_cons, Nat.add_sub_cancel]
            exact List.drop_left ps u
          have hvu : utf8Step [] u = true := by
            have e : utf8Step [] (b :: rest) = utf8Step [] u := by
              rw [hb, hrest, show p :: (ps ++ u) = (p :: ps) ++ u from rfl, ← hpat,
                utf8Step_ascii_append _ _ hp]
            rw [← e]
            exact hs
          have hlu : u.length ≤ n := by
            have hlr : rest.length = ps.length + u.length := by
              rw [hrest, List.length_append]
            simp only [List.length_cons] at hlen
            omega
          rw [hdrop, utf8Step_ascii_append _ _ hr]
          exact ih u [] hlu (by intro x hx; simp at hx) hvu
        · rw [replaceAll, if_neg (fun hc => hpre hc.1)]
          have hlr : rest.length ≤ n := by
            simp only [List.length_cons] at hlen
            omega
          rw [utf8Step] at hs ⊢
          split_ifs at hs ⊢ <;>
            first
            | exact absurd hs Bool.false_ne_true
            | exact ih rest _ hlr (by decide) hs

/-- `replaceAll` with ASCII pattern and replacement preserves UTF-8
validity. -/
theorem replaceAll_preserves_utf8 (pat rep s : List Nat) (hp : AllAscii pat)
    (hr : AllAscii rep) (hne : pat ≠ []) (hs : Utf8Valid s = true) :
    Utf8Valid (replaceAll pat rep s) = true :=
  replaceAll_preserves_utf8_aux pat rep hp hr hne s.length s [] le_rfl
    (by intro x hx; simp at hx) hs

/-- Counterexample for C3: a non-UTF-8 body declaring `latin1` within its
first 200 bytes is transcoded, but its declaration label is NOT rewritten to
name UTF-8 — the output still says `latin1` and mentions no `utf-8`/`UTF-8`
label, because `convertToUTF8` only replaces the exact spellings
`ISO-8859-1` and `iso-8859-1`. -/
theorem c3_counterexample_latin1_not_rewritten :
    Utf8Valid c3CexInput = false ∧
    latinDeclCond c3CexInput = true ∧
    convertToUTF8 c3CexInput = .ok (latin1DecodeBytes c3CexInput) ∧
    containsSeq (asciiBytes "utf-8")
      (asciiLowerBytes (latin1DecodeBytes c3CexInput)) = false ∧
    containsSeq (asciiBytes "latin1")
      (asciiLowerBytes (latin1DecodeBytes c3CexInput)) = true := by
  refine ⟨by decide, by decide, ?_, by decide, by decide⟩
  have e1 : replaceAll (asciiBytes "ISO-8859-1") (asciiBytes "UTF-8")
      (latin1DecodeBytes c3CexInput) = latin1DecodeBytes c3CexInput :=
    replaceAll_of_not_contains _ _ _ (by decide)
  have e2 : replaceAll (asciiBytes "iso-8859-1") (asciiBytes "utf-8")
      (latin1DecodeBytes c3CexInput) = latin1DecodeBytes c3CexInput :=
    replaceAll_of_not_contains _ _ _ (by decide)
  unfold convertToUTF8
  rw [if_neg (by decide), if_pos (by decide)]
  show Except.ok
      (replaceAll (asciiBytes "iso-8859-1") (asciiBytes "utf-8")
        (replaceAll (asciiBytes "ISO-8859-1") (asciiBytes "UTF-8")
          (latin1DecodeBytes c3CexInput))) =
    Except.ok (latin1DecodeBytes c3CexInput)
  rw [e1, e2]

/-- C3 (amended): a non-UTF-8 byte-valued input whose first 200 bytes name a
Latin-1 family encoding is transcoded to valid UTF-8 bytes; the declaration
label is rewritten to name UTF-8 only when spelled exactly `ISO-8859-1` or
`iso-8859-1` (second conjunct, on a concrete such input) — a `latin1`-spelled
label is left unchanged, as the counterexample shows. -/
theorem c3_latin1_branch_valid_utf8 :
    (∀ data : List Nat, (∀ b ∈ data, b < 256) → Utf8Valid data = false →
      latinDeclCond data = true →
      ∃ out, convertToUTF8 data = .ok out ∧ Utf8Valid out = true) ∧
    (∃ out, convertToUTF8 c3IsoInput = .ok out ∧ Utf8Valid out = true ∧
      containsSeq (asciiBytes "utf-8") out = true) := by
  have main : ∀ data : List Nat, (∀ b ∈ data, b < 256) → Utf8Valid data = false →
      latinDeclCond data = true →
      ∃ out, convertToUTF8 data = .ok out ∧ Utf8Valid out = true := by
    intro data h256 hval hcond
    have hconv : convertToUTF8 data =
        .ok (replaceAll (asciiBytes "iso-8859-1") (asciiBytes "utf-8")
          (replaceAll (asciiBytes "ISO-8859-1") (asciiBytes "UTF-8")
            (latin1DecodeBytes data))) := by
      unfold convertToUTF8
      rw [if_neg (by simp [hval]), if_pos hcond]
    exact ⟨_, hconv,
      replaceAll_preserves_utf8 _ _ _ (by decide) (by decide) (by decide)
        (replaceAll_preserves_utf8 _ _ _ (by decide) (by decide) (by decide)
          (utf8Valid_latin1Decode data h256))⟩
  refine ⟨main, ?_⟩
  have e1 : replaceAll (asciiBytes "ISO-8859-1") (asciiBytes "UTF-8")
      (latin1DecodeBytes c3IsoInput) = latin1DecodeBytes c3IsoInput :=
    replaceAll_of_not_contains _ _ _ (by decide)
  have hconv : convertToUTF8 c3IsoInput =
      .ok (replaceAll (asciiBytes "iso-8859-1") (asciiBytes "utf-8")
        (latin1DecodeBytes c3IsoInput)) := by
    unfold convertToUTF8
    rw [if_neg (by decide), if_pos (by decide)]
    show Except.ok
        (replaceAll (asciiBytes "iso-8859-1") (asciiBytes "utf-8")
          (replaceAll (asciiBytes "ISO-8859-1") (asciiBytes "UTF-8")
            (latin1DecodeBytes c3IsoInput))) =
      Except.ok (replaceAll (asciiBytes "iso-8859-1") (asciiBytes "utf-8")
        (latin1DecodeBytes c3IsoInput))
    rw [e1]
  refine ⟨_, hconv, ?_, ?_⟩
  · exact replaceAll_preserves_utf8 _ _ _ (by decide) (by decide) (by decide)
      (utf8Valid_latin1Decode c3IsoInput (by decide))
  · exact containsSeq_rep_replaceAll _ _ (by decide) _ (by decide)

/-- Witness for the universally quantified half of the amended C3, at the
concrete `latin1`-declared input. -/
theorem c3_latin1_branch_valid_utf8_witness :
    ∃ out, convertToUTF8 c3CexInput = .ok out ∧ Utf8Valid out = true :=
  c3_latin1_branch_valid_utf8.1 c3CexInput (by decide) (by decide) (by decide)

end Homematic
